import Mathlib

/-!
Verification development for the one-time token issuance/consumption
mechanism of the `ecommerce_api` repository.

The embedding covers:
* `catalogue/redis_token_store.py` — `RedisTokenStore` (`_key`, `store`,
  `pop` with its GETDEL primary path and pipeline fallback, `exists`),
  modelled over an association-list key-value store with absolute expiry
  times and an explicit current time;
* `catalogue/views.py` — `VerifyEmailView._verify_token` and
  `PasswordResetConfirmView._verify_token_and_reset_password` (POST
  consume and GET dry-run), modelled over an explicit user table and the
  store, returning the exact response status/detail pairs of the source.

Redis connectivity failures are modelled by an availability flag: the
client raises (here: `Except.error`) when the server is unreachable,
matching the fact that `pop` only catches `redis.ResponseError`.
-/

namespace ECommerce

/-- A stored Redis entry: the value written and the absolute time at which
the key expires (the key is live at times strictly before `expiry`). -/
structure Entry where
  value : String
  expiry : Nat
deriving DecidableEq, Repr

/-- The Redis keyspace, as an association list from key strings to entries.
Lookup takes the first matching entry. -/
abbrev Store := List (String × Entry)

/-- First entry stored under key `k`, expired or not. -/
def lookupKey : Store → String → Option Entry
  | [], _ => none
  | (k', e) :: rest, k => if k' = k then some e else lookupKey rest k

/-- A key is live at time `t` when an entry is present and unexpired.
Redis treats an expired key exactly like an absent one. -/
def live (s : Store) (t : Nat) (k : String) : Bool :=
  match lookupKey s k with
  | some e => decide (t < e.expiry)
  | none => false

/-- Remove every entry stored under key `k`. -/
def eraseKey : Store → String → Store
  | [], _ => []
  | (k', e) :: rest, k =>
      if k' = k then eraseKey rest k else (k', e) :: eraseKey rest k

/-- Redis `GET key`: the value when the key is live, else nil. -/
def getOp (s : Store) (t : Nat) (k : String) : Option String :=
  match lookupKey s k with
  | some e => if t < e.expiry then some e.value else none
  | none => none

/-- Redis `DEL key`: the keyspace with `k` removed. -/
def delOp (s : Store) (k : String) : Store :=
  eraseKey s k

/-- Redis `SET key value NX EX ttl`: create the entry only when the key is
not live; a live entry is left untouched (value and expiry alike). -/
def setNXEX (s : Store) (t : Nat) (k v : String) (ttlSecs : Nat) : Store :=
  if live s t k then s else (k, ⟨v, t + ttlSecs⟩) :: eraseKey s k

/-- Redis `GETDEL key` (Redis ≥ 6.2): atomically return the live value (or
nil) and remove the key. -/
def getdelOp (s : Store) (t : Nat) (k : String) : Option String × Store :=
  (getOp s t k, eraseKey s k)

/-- `RedisTokenStore._key`: `f"jwt:{token_type}:{jti}"`. -/
def tkey (token_type jti : String) : String :=
  "jwt:" ++ token_type ++ ":" ++ jti

/-- `RedisTokenStore.store`: `SET key "1" EX ttl NX` — register the jti,
never overwriting a live record. -/
def storeOp (s : Store) (t : Nat) (token_type jti : String) (ttlSecs : Nat) :
    Store :=
  setNXEX s t (tkey token_type jti) "1" ttlSecs

/-- `RedisTokenStore.pop`, primary path: `GETDEL` the key and report
whether a value was returned. -/
def popPrimary (s : Store) (t : Nat) (token_type jti : String) :
    Bool × Store :=
  let k := tkey token_type jti
  let r := getdelOp s t k
  (r.1.isSome, r.2)

/-- `RedisTokenStore.pop`, fallback path for Redis < 6.2: a transactional
pipeline issuing `GET key` then `DEL key` and reporting whether `GET`
returned a value. -/
def popFallback (s : Store) (t : Nat) (token_type jti : String) :
    Bool × Store :=
  let k := tkey token_type jti
  let v := getOp s t k
  let s2 := delOp s k
  (v.isSome, s2)

/-- `RedisTokenStore.exists`: non-consuming presence check. -/
def existsOp (s : Store) (t : Nat) (token_type jti : String) : Bool :=
  live s t (tkey token_type jti)

/-- The only store failure the views can observe: the Redis server is
unreachable or the call times out, raising `redis.ConnectionError`, which
`pop` does not catch (it catches only `redis.ResponseError`). -/
inductive StoreErr where
  | connectionError
deriving DecidableEq, Repr

/-- `RedisTokenStore.pop` as invoked through the client: when the server is
unavailable the command raises; when `GETDEL` is unsupported (old Redis, a
`redis.ResponseError`) the pipeline fallback runs; otherwise `GETDEL`. -/
def popClient (avail supportsGetDel : Bool) (s : Store) (t : Nat)
    (token_type jti : String) : Except StoreErr (Bool × Store) :=
  if avail then
    .ok (if supportsGetDel then popPrimary s t token_type jti
         else popFallback s t token_type jti)
  else .error .connectionError

/-- The claims of a submitted JWT after decoding: declared token kind, the
unique identifier, and the subject. -/
structure Payload where
  token_type : String
  jti : String
  user_id : Nat
deriving DecidableEq, Repr

/-- A submitted token string as the verification layer sees it: its decoded
payload plus the two facts `UntypedToken` checks statelessly — whether the
signature verifies and whether the embedded `exp` has passed. -/
structure SubmittedToken where
  payload : Payload
  sigValid : Bool
  expired : Bool
deriving DecidableEq, Repr

/-- `UntypedToken(token)` succeeds exactly when the signature verifies and
the embedded expiry has not passed; otherwise it raises `TokenError`. -/
def untypedTokenOk (tk : SubmittedToken) : Bool :=
  tk.sigValid && !tk.expired

/-- A row of the user table, with the fields the two flows read or write. -/
structure UserRec where
  user_id : Nat
  is_active : Bool
  password : Option String
deriving DecidableEq, Repr

/-- The user table. -/
abbrev DB := List UserRec

/-- `User.objects.get(user_id=uid)`: first row with the given id, if any. -/
def findUser : DB → Nat → Option UserRec
  | [], _ => none
  | u :: rest, uid => if u.user_id = uid then some u else findUser rest uid

/-- `user.is_active = True; user.save()`. -/
def setActive (db : DB) (uid : Nat) : DB :=
  db.map fun u => if u.user_id = uid then { u with is_active := true } else u

/-- `user.set_password(new_password); user.save()`. -/
def setPassword (db : DB) (uid : Nat) (pw : Option String) : DB :=
  db.map fun u => if u.user_id = uid then { u with password := pw } else u

/-- An HTTP response as the user sees it: status code and detail message. -/
structure Response where
  status : Nat
  detail : String
deriving DecidableEq, Repr

/-- A call made to the redemption store during a request, recorded so that
frame properties ("this branch does not touch the store") are statable. -/
inductive StoreCall where
  | popped (token_type jti : String)
  | registered (token_type jti : String) (ttlSecs : Nat)
  | checked (token_type jti : String)
deriving DecidableEq, Repr

/-- `VerifyEmailView._verify_token`: decode and verify the token, check the
declared kind is `"email"`, pop the jti from the store, look up the user,
and activate the account. Returns the response together with the resulting
user table, store state, and the store calls performed. -/
def verifyEmailView (avail supportsGetDel : Bool) (db : DB) (s : Store)
    (t : Nat) (tk : SubmittedToken) :
    Except StoreErr (Response × DB × Store × List StoreCall) :=
  if untypedTokenOk tk = false then
    .ok (⟨400, "Invalid or expired token"⟩, db, s, [])
  else if tk.payload.token_type ≠ "email" then
    .ok (⟨400, "Invalid token type"⟩, db, s, [])
  else
    match popClient avail supportsGetDel s t "email" tk.payload.jti with
    | .error e => .error e
    | .ok (ok, s') =>
      let calls := [StoreCall.popped "email" tk.payload.jti]
      if ok = false then
        .ok (⟨400, "Token already used or not found."⟩, db, s', calls)
      else
        match findUser db tk.payload.user_id with
        | none => .ok (⟨404, "User not found"⟩, db, s', calls)
        | some u =>
          if u.is_active then
            .ok (⟨200, "Email already verified"⟩, db, s', calls)
          else
            .ok (⟨200, "Email verified successfully"⟩,
                 setActive db tk.payload.user_id, s', calls)

/-- `PasswordResetConfirmView._verify_token_and_reset_password`: decode and
verify the token, check the declared kind is `"password_reset"`, and then —
only when `dry_run` is false (`if not dry_run and not redis_store.pop(...)`
short-circuits) — pop the jti; look up the user; on a dry run report
validity, otherwise set the new password. -/
def passwordResetConfirmView (avail supportsGetDel : Bool) (db : DB)
    (s : Store) (t : Nat) (tk : SubmittedToken) (new_password : Option String)
    (dry_run : Bool) :
    Except StoreErr (Response × DB × Store × List StoreCall) :=
  if untypedTokenOk tk = false then
    .ok (⟨400, "Invalid or expired token."⟩, db, s, [])
  else if tk.payload.token_type ≠ "password_reset" then
    .ok (⟨400, "Invalid token type."⟩, db, s, [])
  else if dry_run then
    match findUser db tk.payload.user_id with
    | none => .ok (⟨404, "User not found."⟩, db, s, [])
    | some _ => .ok (⟨200, "Token is valid."⟩, db, s, [])
  else
    match popClient avail supportsGetDel s t "password_reset" tk.payload.jti with
    | .error e => .error e
    | .ok (ok, s') =>
      let calls := [StoreCall.popped "password_reset" tk.payload.jti]
      if ok = false then
        .ok (⟨400, "Token already used or not found."⟩, db, s', calls)
      else
        match findUser db tk.payload.user_id with
        | none => .ok (⟨404, "User not found."⟩, db, s', calls)
        | some _ =>
          .ok (⟨200, "Password reset successful."⟩,
               setPassword db tk.payload.user_id new_password, s', calls)

/-- A sequence of `pop` calls for one `(token_type, jti)` pair at the given
times, threading the store state; returns the list of results and the final
state. -/
def popSeq (s : Store) (token_type jti : String) : List Nat → List Bool × Store
  | [] => ([], s)
  | t :: ts =>
    let r := popPrimary s t token_type jti
    let rest := popSeq r.2 token_type jti ts
    (r.1 :: rest.1, rest.2)

/-! ### Basic lemmas about the keyspace operations -/

theorem lookupKey_eraseKey_self (s : Store) (k : String) :
    lookupKey (eraseKey s k) k = none := by
  induction s with
  | nil => rfl
  | cons p rest ih =>
    obtain ⟨k', e⟩ := p
    by_cases h : k' = k
    · simpa [eraseKey, h] using ih
    · simp [eraseKey, lookupKey, h, ih]

theorem lookupKey_eraseKey_ne (s : Store) (k k' : String) (h : k' ≠ k) :
    lookupKey (eraseKey s k) k' = lookupKey s k' := by
  induction s with
  | nil => rfl
  | cons p rest ih =>
    obtain ⟨k0, e⟩ := p
    by_cases h0 : k0 = k
    · subst h0
      have hne : k0 ≠ k' := fun hc => h hc.symm
      simp [eraseKey, lookupKey, hne, ih]
    · by_cases h1 : k0 = k'
      · subst h1
        simp [eraseKey, lookupKey, h0]
      · simp [eraseKey, lookupKey, h0, h1, ih]

theorem live_eraseKey_self (s : Store) (t : Nat) (k : String) :
    live (eraseKey s k) t k = false := by
  simp [live, lookupKey_eraseKey_self]

theorem live_eraseKey_ne (s : Store) (t : Nat) (k k' : String) (h : k' ≠ k) :
    live (eraseKey s k) t k' = live s t k' := by
  simp [live, lookupKey_eraseKey_ne s k k' h]

theorem getOp_isSome (s : Store) (t : Nat) (k : String) :
    (getOp s t k).isSome = live s t k := by
  unfold getOp live
  cases lookupKey s k with
  | none => rfl
  | some e =>
    by_cases h : t < e.expiry <;> simp [h]

theorem popPrimary_fst (s : Store) (t : Nat) (token_type jti : String) :
    (popPrimary s t token_type jti).1 = live s t (tkey token_type jti) := by
  simp [popPrimary, getdelOp, getOp_isSome]

theorem popPrimary_snd (s : Store) (t : Nat) (token_type jti : String) :
    (popPrimary s t token_type jti).2 = eraseKey s (tkey token_type jti) :=
  rfl

theorem popFallback_fst (s : Store) (t : Nat) (token_type jti : String) :
    (popFallback s t token_type jti).1 = live s t (tkey token_type jti) := by
  simp [popFallback, delOp, getOp_isSome]

theorem live_false_of_lookup_none (s : Store) (t : Nat) (k : String)
    (h : lookupKey s k = none) : live s t k = false := by
  simp [live, h]

/-- Once the key is physically absent, every further `pop` in a sequence
returns `false` and keeps it absent. -/
theorem popSeq_dead (token_type jti : String) (ts : List Nat) :
    ∀ s : Store, lookupKey s (tkey token_type jti) = none →
      (popSeq s token_type jti ts).1 = List.replicate ts.length false := by
  induction ts with
  | nil => intro s _; rfl
  | cons t ts ih =>
    intro s h
    have hfst : (popPrimary s t token_type jti).1 = false := by
      rw [popPrimary_fst]
      exact live_false_of_lookup_none s t _ h
    have hdead : lookupKey (popPrimary s t token_type jti).2
        (tkey token_type jti) = none := by
      rw [popPrimary_snd]
      exact lookupKey_eraseKey_self s _
    simp [popSeq, hfst, ih _ hdead, List.replicate_succ]

/-- With the server reachable, `pop` — on either path — reports liveness of
the key and removes it. -/
theorem popClient_avail (sup : Bool) (s : Store) (t : Nat)
    (token_type jti : String) :
    popClient true sup s t token_type jti =
      .ok (live s t (tkey token_type jti), eraseKey s (tkey token_type jti)) := by
  cases sup <;>
    simp [popClient, popPrimary, popFallback, getdelOp, delOp, getOp_isSome]

/-- Keys of the two token kinds never coincide for the same jti: the
prefixes `jwt:email:` and `jwt:password_reset:` have different lengths. -/
theorem tkey_email_ne_tkey_password_reset (jti : String) :
    tkey "email" jti ≠ tkey "password_reset" jti := by
  intro h
  have hlen := congrArg String.length h
  simp [tkey, String.length_append] at hlen
  exact absurd hlen (by decide)

/-- C1: single-use redemption — for a registered, unexpired
`(token_type, jti)` pair, the first `pop` returns `true` and every
subsequent `pop` for the same pair returns `false`: `true` is returned at
most once per registered identifier. -/
theorem C1_single_use_redemption (s : Store) (token_type jti : String)
    (t : Nat) (ts : List Nat)
    (hlive : live s t (tkey token_type jti) = true) :
    (popSeq s token_type jti (t :: ts)).1 =
      true :: List.replicate ts.length false := by
  have hfst : (popPrimary s t token_type jti).1 = true := by
    rw [popPrimary_fst]; exact hlive
  have hdead : lookupKey (popPrimary s t token_type jti).2
      (tkey token_type jti) = none := by
    rw [popPrimary_snd]; exact lookupKey_eraseKey_self s _
  simp [popSeq, hfst, popSeq_dead token_type jti ts _ hdead,
    List.replicate_succ]

theorem C1_single_use_redemption_witness :
    live [(tkey "email" "j1", ⟨"1", 10⟩)] 0 (tkey "email" "j1") = true ∧
    (popSeq [(tkey "email" "j1", ⟨"1", 10⟩)] "email" "j1" [0, 1, 2]).1 =
      true :: List.replicate 2 false :=
  ⟨by decide, C1_single_use_redemption _ "email" "j1" 0 [1, 2] (by decide)⟩

/-- C8: register does not overwrite — `store` (SET NX EX) leaves the whole
keyspace untouched when a live record already exists for the pair (value
and remaining TTL included), and creates the record exactly when none is
live. -/
theorem C8_register_no_overwrite (s : Store) (t : Nat)
    (token_type jti : String) (ttlSecs : Nat) :
    (live s t (tkey token_type jti) = true →
       storeOp s t token_type jti ttlSecs = s) ∧
    (live s t (tkey token_type jti) = false →
       lookupKey (storeOp s t token_type jti ttlSecs) (tkey token_type jti) =
         some ⟨"1", t + ttlSecs⟩) := by
  constructor
  · intro h
    simp [storeOp, setNXEX, h]
  · intro h
    simp [storeOp, setNXEX, h, lookupKey]

theorem C8_register_no_overwrite_witness :
    (live [(tkey "email" "j2", ⟨"1", 9⟩)] 0 (tkey "email" "j2") = true ∧
      storeOp [(tkey "email" "j2", ⟨"1", 9⟩)] 0 "email" "j2" 5 =
        [(tkey "email" "j2", ⟨"1", 9⟩)]) ∧
    (live [] 3 (tkey "email" "j2") = false ∧
      lookupKey (storeOp [] 3 "email" "j2" 5) (tkey "email" "j2") =
        some ⟨"1", 8⟩) :=
  ⟨⟨by decide,
      (C8_register_no_overwrite [(tkey "email" "j2", ⟨"1", 9⟩)] 0 "email" "j2"
        5).1 (by decide)⟩,
   ⟨by decide, (C8_register_no_overwrite [] 3 "email" "j2" 5).2 (by decide)⟩⟩

/-- C9: fallback equivalence — the transactional GET-then-DEL pipeline
computes exactly the result of the GETDEL primary path: from any store
state both return `true` precisely when the key was live, and both leave
the key absent afterwards. -/
theorem C9_fallback_equivalence (s : Store) (t : Nat)
    (token_type jti : String) :
    popFallback s t token_type jti = popPrimary s t token_type jti ∧
    (popPrimary s t token_type jti).1 = live s t (tkey token_type jti) ∧
    ∀ t2, live (popPrimary s t token_type jti).2 t2 (tkey token_type jti) =
      false := by
  refine ⟨rfl, popPrimary_fst s t token_type jti, fun t2 => ?_⟩
  rw [popPrimary_snd]
  exact live_eraseKey_self s t2 _

/-- C2: rejection indistinguishability — whenever `pop` comes back `false`
(the key is not live: already consumed, passively TTL-evicted, or never
issued), each endpoint answers with the one fixed rejection — status 400,
detail `Token already used or not found.` — independent of the store's
history, so the response reveals nothing about the token's past. -/
theorem C2_rejection_indistinguishability (sup : Bool) (db : DB) (s : Store)
    (t : Nat) (tkE tkP : SubmittedToken) (np : Option String) :
    (untypedTokenOk tkE = true → tkE.payload.token_type = "email" →
      live s t (tkey "email" tkE.payload.jti) = false →
      verifyEmailView true sup db s t tkE =
        .ok (⟨400, "Token already used or not found."⟩, db,
             eraseKey s (tkey "email" tkE.payload.jti),
             [StoreCall.popped "email" tkE.payload.jti])) ∧
    (untypedTokenOk tkP = true → tkP.payload.token_type = "password_reset" →
      live s t (tkey "password_reset" tkP.payload.jti) = false →
      passwordResetConfirmView true sup db s t tkP np false =
        .ok (⟨400, "Token already used or not found."⟩, db,
             eraseKey s (tkey "password_reset" tkP.payload.jti),
             [StoreCall.popped "password_reset" tkP.payload.jti])) := by
  constructor
  · intro h1 h2 h3
    simp [verifyEmailView, h1, h2, popClient_avail, h3]
  · intro h1 h2 h3
    simp [passwordResetConfirmView, h1, h2, popClient_avail, h3]

theorem C2_rejection_indistinguishability_witness :
    verifyEmailView true true [] [] 0 ⟨⟨"email", "j3", 1⟩, true, false⟩ =
      .ok (⟨400, "Token already used or not found."⟩, [],
           eraseKey [] (tkey "email" "j3"), [StoreCall.popped "email" "j3"]) ∧
    passwordResetConfirmView true true [] [] 0
        ⟨⟨"password_reset", "j3", 1⟩, true, false⟩ none false =
      .ok (⟨400, "Token already used or not found."⟩, [],
           eraseKey [] (tkey "password_reset" "j3"),
           [StoreCall.popped "password_reset" "j3"]) := by
  have h := C2_rejection_indistinguishability true [] [] 0
    ⟨⟨"email", "j3", 1⟩, true, false⟩ ⟨⟨"password_reset", "j3", 1⟩, true, false⟩
    none
  exact ⟨h.1 rfl rfl (by decide), h.2 rfl rfl (by decide)⟩

/-- C3: no store access on pre-validation failure — a token failing the
signature check, past its embedded expiry, or carrying the wrong declared
kind is rejected with a 400 response while the user table and the store
are returned untouched and no store call is recorded. -/
theorem C3_no_store_access_on_prevalidation_failure (avail sup : Bool)
    (db : DB) (s : Store) (t : Nat) (tk : SubmittedToken) (np : Option String)
    (dr : Bool) :
    ((tk.sigValid = false ∨ tk.expired = true ∨
        tk.payload.token_type ≠ "email") →
      ∃ r : Response, verifyEmailView avail sup db s t tk =
        .ok (r, db, s, []) ∧ r.status = 400) ∧
    ((tk.sigValid = false ∨ tk.expired = true ∨
        tk.payload.token_type ≠ "password_reset") →
      ∃ r : Response, passwordResetConfirmView avail sup db s t tk np dr =
        .ok (r, db, s, []) ∧ r.status = 400) := by
  constructor
  · intro h
    by_cases h0 : untypedTokenOk tk = false
    · exact ⟨⟨400, "Invalid or expired token"⟩,
        by simp [verifyEmailView, h0], rfl⟩
    · have huok : untypedTokenOk tk = true := by
        cases hcase : untypedTokenOk tk with
        | false => exact absurd hcase h0
        | true => rfl
      simp [untypedTokenOk] at huok
      have hty : tk.payload.token_type ≠ "email" := by
        rcases h with h | h | h
        · rw [huok.1] at h; exact absurd h (by decide)
        · rw [huok.2] at h; exact absurd h (by decide)
        · exact h
      exact ⟨⟨400, "Invalid token type"⟩,
        by simp [verifyEmailView, h0, hty], rfl⟩
  · intro h
    by_cases h0 : untypedTokenOk tk = false
    · exact ⟨⟨400, "Invalid or expired token."⟩,
        by simp [passwordResetConfirmView, h0], rfl⟩
    · have huok : untypedTokenOk tk = true := by
        cases hcase : untypedTokenOk tk with
        | false => exact absurd hcase h0
        | true => rfl
      simp [untypedTokenOk] at huok
      have hty : tk.payload.token_type ≠ "password_reset" := by
        rcases h with h | h | h
        · rw [huok.1] at h; exact absurd h (by decide)
        · rw [huok.2] at h; exact absurd h (by decide)
        · exact h
      exact ⟨⟨400, "Invalid token type."⟩,
        by simp [passwordResetConfirmView, h0, hty], rfl⟩

theorem C3_no_store_access_on_prevalidation_failure_witness :
    (∃ r : Response,
      verifyEmailView true true [] [] 0 ⟨⟨"email", "j4", 1⟩, false, false⟩ =
        .ok (r, [], [], []) ∧ r.status = 400) ∧
    (∃ r : Response,
      passwordResetConfirmView true true [] [] 0
          ⟨⟨"password_reset", "j4", 1⟩, false, false⟩ none false =
        .ok (r, [], [], []) ∧ r.status = 400) := by
  have hE := C3_no_store_access_on_prevalidation_failure true true [] [] 0
    ⟨⟨"email", "j4", 1⟩, false, false⟩ none false
  have hP := C3_no_store_access_on_prevalidation_failure true true [] [] 0
    ⟨⟨"password_reset", "j4", 1⟩, false, false⟩ none false
  exact ⟨hE.1 (Or.inl rfl), hP.2 (Or.inl rfl)⟩

/-- C7: token type isolation — a signature-valid token declared as the
email-verification kind is rejected by the password-reset path with
`Invalid token type.` before any store call; the two kinds' keys are
disjoint for every jti, and popping under one kind never changes the
liveness of the identical jti registered under the other kind. -/
theorem C7_token_type_isolation (avail sup : Bool) (db : DB) (s : Store)
    (t t1 t2 : Nat) (tk : SubmittedToken) (np : Option String) (dr : Bool)
    (jti : String) :
    (untypedTokenOk tk = true → tk.payload.token_type = "email" →
      passwordResetConfirmView avail sup db s t tk np dr =
        .ok (⟨400, "Invalid token type."⟩, db, s, [])) ∧
    tkey "email" jti ≠ tkey "password_reset" jti ∧
    live (popPrimary s t1 "password_reset" jti).2 t2 (tkey "email" jti) =
      live s t2 (tkey "email" jti) ∧
    live (popPrimary s t1 "email" jti).2 t2 (tkey "password_reset" jti) =
      live s t2 (tkey "password_reset" jti) := by
  refine ⟨?_, tkey_email_ne_tkey_password_reset jti, ?_, ?_⟩
  · intro h1 h2
    have hne : ¬ tk.payload.token_type = "password_reset" := by
      rw [h2]; intro hc; exact absurd hc (by decide)
    simp [passwordResetConfirmView, h1, hne]
  · rw [popPrimary_snd]
    exact live_eraseKey_ne s t2 _ _ (tkey_email_ne_tkey_password_reset jti)
  · rw [popPrimary_snd]
    exact live_eraseKey_ne s t2 _ _
      (fun hc => tkey_email_ne_tkey_password_reset jti hc.symm)

theorem C7_token_type_isolation_witness :
    passwordResetConfirmView true true [] [] 0
        ⟨⟨"email", "j5", 1⟩, true, false⟩ none false =
      .ok (⟨400, "Invalid token type."⟩, [], [], []) ∧
    tkey "email" "j5" ≠ tkey "password_reset" "j5" := by
  have h := C7_token_type_isolation true true [] [] 0 0 0
    ⟨⟨"email", "j5", 1⟩, true, false⟩ none false "j5"
  exact ⟨h.1 rfl rfl, h.2.1⟩

/-- C4: irreversible consumption — when `pop` succeeds but the subject
named by the token is missing, each endpoint answers 404 with the record
already deleted; the key stays dead at every later time, and re-presenting
the same token is rejected as already used. -/
theorem C4_irreversible_consumption (sup : Bool) (db : DB) (s : Store)
    (t t2 t3 : Nat) (tkP tkE : SubmittedToken) (np np2 : Option String) :
    (untypedTokenOk tkP = true → tkP.payload.token_type = "password_reset" →
      live s t (tkey "password_reset" tkP.payload.jti) = true →
      findUser db tkP.payload.user_id = none →
      passwordResetConfirmView true sup db s t tkP np false =
        .ok (⟨404, "User not found."⟩, db,
             eraseKey s (tkey "password_reset" tkP.payload.jti),
             [StoreCall.popped "password_reset" tkP.payload.jti]) ∧
      live (eraseKey s (tkey "password_reset" tkP.payload.jti)) t2
          (tkey "password_reset" tkP.payload.jti) = false ∧
      passwordResetConfirmView true sup db
          (eraseKey s (tkey "password_reset" tkP.payload.jti)) t3 tkP np2
          false =
        .ok (⟨400, "Token already used or not found."⟩, db,
             eraseKey (eraseKey s (tkey "password_reset" tkP.payload.jti))
               (tkey "password_reset" tkP.payload.jti),
             [StoreCall.popped "password_reset" tkP.payload.jti])) ∧
    (untypedTokenOk tkE = true → tkE.payload.token_type = "email" →
      live s t (tkey "email" tkE.payload.jti) = true →
      findUser db tkE.payload.user_id = none →
      verifyEmailView true sup db s t tkE =
        .ok (⟨404, "User not found"⟩, db,
             eraseKey s (tkey "email" tkE.payload.jti),
             [StoreCall.popped "email" tkE.payload.jti]) ∧
      live (eraseKey s (tkey "email" tkE.payload.jti)) t2
          (tkey "email" tkE.payload.jti) = false ∧
      verifyEmailView true sup db (eraseKey s (tkey "email" tkE.payload.jti))
          t3 tkE =
        .ok (⟨400, "Token already used or not found."⟩, db,
             eraseKey (eraseKey s (tkey "email" tkE.payload.jti))
               (tkey "email" tkE.payload.jti),
             [StoreCall.popped "email" tkE.payload.jti])) := by
  constructor
  · intro h1 h2 h3 h4
    refine ⟨?_, live_eraseKey_self s t2 _, ?_⟩
    · simp [passwordResetConfirmView, h1, h2, popClient_avail, h3, h4]
    · have hdead := live_eraseKey_self s t3
        (tkey "password_reset" tkP.payload.jti)
      simp [passwordResetConfirmView, h1, h2, popClient_avail, hdead]
  · intro h1 h2 h3 h4
    refine ⟨?_, live_eraseKey_self s t2 _, ?_⟩
    · simp [verifyEmailView, h1, h2, popClient_avail, h3, h4]
    · have hdead := live_eraseKey_self s t3 (tkey "email" tkE.payload.jti)
      simp [verifyEmailView, h1, h2, popClient_avail, hdead]

theorem C4_irreversible_consumption_witness :
    passwordResetConfirmView true true []
        [(tkey "password_reset" "j6", ⟨"1", 10⟩),
         (tkey "email" "j6", ⟨"1", 10⟩)] 0
        ⟨⟨"password_reset", "j6", 1⟩, true, false⟩ (some "pw") false =
      .ok (⟨404, "User not found."⟩, [],
           eraseKey [(tkey "password_reset" "j6", ⟨"1", 10⟩),
             (tkey "email" "j6", ⟨"1", 10⟩)] (tkey "password_reset" "j6"),
           [StoreCall.popped "password_reset" "j6"]) ∧
    verifyEmailView true true []
        [(tkey "password_reset" "j6", ⟨"1", 10⟩),
         (tkey "email" "j6", ⟨"1", 10⟩)] 0
        ⟨⟨"email", "j6", 1⟩, true, false⟩ =
      .ok (⟨404, "User not found"⟩, [],
           eraseKey [(tkey "password_reset" "j6", ⟨"1", 10⟩),
             (tkey "email" "j6", ⟨"1", 10⟩)] (tkey "email" "j6"),
           [StoreCall.popped "email" "j6"]) := by
  have h := C4_irreversible_consumption true [] [(tkey "password_reset" "j6",
    ⟨"1", 10⟩), (tkey "email" "j6", ⟨"1", 10⟩)] 0 0 0
    ⟨⟨"password_reset", "j6", 1⟩, true, false⟩ ⟨⟨"email", "j6", 1⟩, true,
    false⟩ (some "pw") none
  exact ⟨(h.1 rfl rfl (by decide) rfl).1, (h.2 rfl rfl (by decide) rfl).1⟩

/-- C10: when redemption succeeds but the user is already active, the email
verification endpoint answers 200 `Email already verified`, returns the
user table unchanged, and the redemption record is nevertheless deleted —
the key is dead at every later time. -/
theorem C10_already_verified_consumes_token (sup : Bool) (db : DB)
    (s : Store) (t : Nat) (tk : SubmittedToken) (u : UserRec)
    (h1 : untypedTokenOk tk = true) (h2 : tk.payload.token_type = "email")
    (h3 : live s t (tkey "email" tk.payload.jti) = true)
    (h4 : findUser db tk.payload.user_id = some u) (h5 : u.is_active = true) :
    verifyEmailView true sup db s t tk =
      .ok (⟨200, "Email already verified"⟩, db,
           eraseKey s (tkey "email" tk.payload.jti),
           [StoreCall.popped "email" tk.payload.jti]) ∧
    ∀ t2, live (eraseKey s (tkey "email" tk.payload.jti)) t2
        (tkey "email" tk.payload.jti) = false := by
  refine ⟨?_, fun t2 => live_eraseKey_self s t2 _⟩
  simp [verifyEmailView, h1, h2, popClient_avail, h3, h4, h5]

theorem C10_already_verified_consumes_token_witness :
    verifyEmailView true true [⟨1, true, none⟩]
        [(tkey "email" "j7", ⟨"1", 10⟩)] 0
        ⟨⟨"email", "j7", 1⟩, true, false⟩ =
      .ok (⟨200, "Email already verified"⟩, [⟨1, true, none⟩],
           eraseKey [(tkey "email" "j7", ⟨"1", 10⟩)] (tkey "email" "j7"),
           [StoreCall.popped "email" "j7"]) ∧
    ∀ t2, live (eraseKey [(tkey "email" "j7", ⟨"1", 10⟩)] (tkey "email" "j7"))
        t2 (tkey "email" "j7") = false :=
  C10_already_verified_consumes_token true [⟨1, true, none⟩]
    [(tkey "email" "j7", ⟨"1", 10⟩)] 0 ⟨⟨"email", "j7", 1⟩, true, false⟩
    ⟨1, true, none⟩ rfl rfl (by decide) rfl rfl

/-- C6: store unavailability is distinct from absence — with the server
unreachable, `pop` raises the connection error (it is never an `ok false`,
i.e. never identifier-absent), and each endpoint propagates that error
instead of answering with any token rejection response. -/
theorem C6_store_unavailable_distinct (sup : Bool) (db : DB) (s : Store)
    (t : Nat) (tkE tkP : SubmittedToken) (np : Option String) :
    (∀ t2 token_type jti, popClient false sup s t2 token_type jti =
        .error .connectionError ∧
      ∀ b s2, popClient false sup s t2 token_type jti ≠ .ok (b, s2)) ∧
    (untypedTokenOk tkE = true → tkE.payload.token_type = "email" →
      verifyEmailView false sup db s t tkE = .error .connectionError) ∧
    (untypedTokenOk tkP = true → tkP.payload.token_type = "password_reset" →
      passwordResetConfirmView false sup db s t tkP np false =
        .error .connectionError) := by
  refine ⟨fun t2 ty jti => ⟨rfl, fun b s2 => by simp [popClient]⟩, ?_, ?_⟩
  · intro h1 h2
    simp [verifyEmailView, h1, h2, popClient]
  · intro h1 h2
    simp [passwordResetConfirmView, h1, h2, popClient]

theorem C6_store_unavailable_distinct_witness :
    verifyEmailView false true [] [] 0 ⟨⟨"email", "j0", 1⟩, true, false⟩ =
      .error .connectionError ∧
    passwordResetConfirmView false true [] [] 0
        ⟨⟨"password_reset", "j0", 1⟩, true, false⟩ none false =
      .error .connectionError := by
  have h := C6_store_unavailable_distinct true [] [] 0
    ⟨⟨"email", "j0", 1⟩, true, false⟩ ⟨⟨"password_reset", "j0", 1⟩, true,
    false⟩ none
  exact ⟨h.2.1 rfl rfl, h.2.2 rfl rfl⟩

/-- C5 counterexample: the GET dry-run never consults the redemption store
(`RedisTokenStore.exists` has no caller and `pop` is short-circuited away).
With an empty store — the identifier `j8` is not registered, e.g. already
consumed — the dry run still answers 200 `Token is valid.`, and the
subsequent POST with the very same token is rejected, falsifying both the
"valid exactly when the identifier still exists in the store" part and the
"after a dry-run reports valid, a subsequent POST succeeds" part. -/
theorem C5_dry_run_counterexample :
    passwordResetConfirmView true true [⟨1, true, some "old"⟩] [] 0
        ⟨⟨"password_reset", "j8", 1⟩, true, false⟩ none true =
      .ok (⟨200, "Token is valid."⟩, [⟨1, true, some "old"⟩], [], []) ∧
    existsOp [] 0 "password_reset" "j8" = false ∧
    passwordResetConfirmView true true [⟨1, true, some "old"⟩] [] 0
        ⟨⟨"password_reset", "j8", 1⟩, true, false⟩ (some "newpw") false =
      .ok (⟨400, "Token already used or not found."⟩,
           [⟨1, true, some "old"⟩], [],
           [StoreCall.popped "password_reset" "j8"]) := by
  refine ⟨rfl, rfl, ?_⟩
  simp [passwordResetConfirmView, popClient, popPrimary, getdelOp, getOp,
    lookupKey, live, eraseKey, untypedTokenOk]

/-- C5 (amended): dry-run contract — the password-reset GET dry-run is
non-consuming: it makes no store call and returns the user table and store
unchanged, and it reports the token as valid exactly when the signed token
verifies statelessly (signature, embedded expiry, declared kind) and the
subject exists — the redemption store is not consulted. A subsequent POST
with the same token succeeds when additionally the identifier is still
live in the store. -/
theorem C5_dry_run_contract (avail sup : Bool) (db : DB) (s : Store)
    (t t2 : Nat) (tk : SubmittedToken) (np : Option String) :
    (∃ r : Response, passwordResetConfirmView avail sup db s t tk none true =
        .ok (r, db, s, []) ∧
      (r = ⟨200, "Token is valid."⟩ ↔
        (tk.sigValid = true ∧ tk.expired = false ∧
         tk.payload.token_type = "password_reset" ∧
         (findUser db tk.payload.user_id).isSome = true))) ∧
    (untypedTokenOk tk = true → tk.payload.token_type = "password_reset" →
      live s t2 (tkey "password_reset" tk.payload.jti) = true →
      ∀ u : UserRec, findUser db tk.payload.user_id = some u →
      passwordResetConfirmView true sup db s t2 tk np false =
        .ok (⟨200, "Password reset successful."⟩,
             setPassword db tk.payload.user_id np,
             eraseKey s (tkey "password_reset" tk.payload.jti),
             [StoreCall.popped "password_reset" tk.payload.jti])) := by
  constructor
  · by_cases h0 : untypedTokenOk tk = false
    · refine ⟨⟨400, "Invalid or expired token."⟩,
        by simp [passwordResetConfirmView, h0], ?_⟩
      constructor
      · intro hc; exact absurd hc (by decide)
      · rintro ⟨hsig, hexp, -⟩
        simp [untypedTokenOk, hsig, hexp] at h0
    · have huok : untypedTokenOk tk = true := by
        cases hcase : untypedTokenOk tk with
        | false => exact absurd hcase h0
        | true => rfl
      have hands := huok
      simp [untypedTokenOk] at hands
      by_cases hty : tk.payload.token_type = "password_reset"
      · cases hfind : findUser db tk.payload.user_id with
        | none =>
          refine ⟨⟨404, "User not found."⟩,
            by simp [passwordResetConfirmView, h0, hty, hfind], ?_⟩
          constructor
          · intro hc; exact absurd hc (by decide)
          · rintro ⟨-, -, -, hsome⟩
            exact absurd hsome (by decide)
        | some u =>
          refine ⟨⟨200, "Token is valid."⟩,
            by simp [passwordResetConfirmView, h0, hty, hfind], ?_⟩
          simp [hands.1, hands.2, hty, hfind]
      · refine ⟨⟨400, "Invalid token type."⟩,
          by simp [passwordResetConfirmView, h0, hty], ?_⟩
        constructor
        · intro hc; exact absurd hc (by decide)
        · rintro ⟨-, -, hc, -⟩
          exact (hty hc).elim
  · intro h1 h2 h3 u h4
    simp [passwordResetConfirmView, h1, h2, popClient_avail, h3, h4]

theorem C5_dry_run_contract_witness :
    passwordResetConfirmView true true [⟨1, false, none⟩]
        [(tkey "password_reset" "j9", ⟨"1", 10⟩)] 0
        ⟨⟨"password_reset", "j9", 1⟩, true, false⟩ (some "pw") false =
      .ok (⟨200, "Password reset successful."⟩,
           setPassword [⟨1, false, none⟩] 1 (some "pw"),
           eraseKey [(tkey "password_reset" "j9", ⟨"1", 10⟩)]
             (tkey "password_reset" "j9"),
           [StoreCall.popped "password_reset" "j9"]) :=
  (C5_dry_run_contract true true [⟨1, false, none⟩]
    [(tkey "password_reset" "j9", ⟨"1", 10⟩)] 0 0
    ⟨⟨"password_reset", "j9", 1⟩, true, false⟩ (some "pw")).2 rfl rfl
    (by decide) ⟨1, false, none⟩ rfl

end ECommerce
